import Mathlib

/-!
# Verification of the flow-sdk auction/bid client

A shallow embedding, in Lean 4, of the parts of the `flow` Python package
that the checked properties concern: auction matching
(`flow/managers/auction_finder.py`), limit-price computation
(`flow/managers/task_manager.py`), the bootstrap-script encoding pipeline
(`flow/startup_script_builder/startup_script_builder.py`), port expansion
(`flow/task_config/models.py`), the Foundry facade
(`flow/clients/foundry_client.py`), region resolution
(`flow/clients/storage_client.py`), login handling
(`flow/clients/authenticator.py`) and the Auction model
(`flow/models/auction.py`).

Python strings are modelled as Lean `String` (char-level operations work on
`List Char` = `String.toList`); Python `int` as `Int`; Python `float`
literals from the priority table as exact rationals; `None`-able values as
`Option`; raised exceptions as `Except` with one constructor per exception
kind the code distinguishes.
-/

namespace FlowSdk

/-! ## Python-level helpers -/

/-- Python truthiness of an optional string (`if s:`): `None` and the empty
string are falsy. -/
def optStrTruthy : Option String → Bool
  | none => false
  | some s => !s.isEmpty

/-- `str.lower()` restricted to ASCII case mapping (the fields this is
applied to — GPU types, interconnects, priorities — are ASCII). Result as a
character list for further char-level work. -/
def pyLower (s : String) : List Char :=
  s.toList.map Char.toLower

/-! ## Regex word-boundary search (auction_finder.py)

`AuctionFinder._matches_criteria` matches the GPU type with
`re.search(r"\b" + re.escape(expected) + r"\b", actual)`: the escaped
criterion is a literal, so the search succeeds exactly when the criterion
occurs in the text at a position with a word boundary on each side.  A word
boundary sits between a word character (`[A-Za-z0-9_]` for the ASCII texts
involved) and a non-word character (or the text's edge). -/

/-- Regex word character (ASCII): letters, digits, underscore. -/
def isWordChar (c : Char) : Bool :=
  c.isAlphanum || c == '_'

/-- Whether position `i` of `s` holds a word character (out of range:
no). -/
def wordCharAt (s : List Char) (i : Nat) : Bool :=
  match s[i]? with
  | some c => isWordChar c
  | none => false

/-- Regex `\b` at position `i` of `s` (positions run from `0` to
`s.length`): exactly one of the neighbouring characters is a word
character. -/
def wordBoundaryAt (s : List Char) (i : Nat) : Bool :=
  (if i = 0 then false else wordCharAt s (i - 1)) != wordCharAt s i

/-- The literal pattern `pat` matches in `s` at position `i`, with `\b` on
both sides. -/
def matchWordAt (pat s : List Char) (i : Nat) : Bool :=
  ((s.drop i).take pat.length == pat)
    && wordBoundaryAt s i && wordBoundaryAt s (i + pat.length)

/-- `re.search` of `\b<literal pat>\b` over `s`: some position matches. -/
def searchWholeWord (pat s : List Char) : Bool :=
  (List.range (s.length + 1)).any (matchWordAt pat s)

/-! ## Data model: Auction and ResourcesSpecification -/

/-- `flow/models/auction.py`: the declared fields of `Auction`.  The wire
alias of `id` is `cluster_id`, of `num_gpus` is `num_gpu`;
`last_price` is a float, modelled as a rational. -/
structure Auction where
  id : String
  gpu_type : Option String := none
  inventory_quantity : Option Int := none
  num_gpus : Option Int := none
  intranode_interconnect : Option String := none
  internode_interconnect : Option String := none
  fcp_instance : Option String := none
  instance_type_id : Option String := none
  last_price : Option ℚ := none
  region : Option String := none
  region_id : Option String := none
  resource_specification_id : Option String := none
  deriving Repr, DecidableEq

/-- `flow/task_config/models.py`: `ResourcesSpecification` (the `advanced`
sub-object plays no role in matching and is omitted). -/
structure ResourcesSpecification where
  fcp_instance : Option String := none
  num_instances : Option Int := none
  gpu_type : Option String := none
  num_gpus : Option Int := none
  intranode_interconnect : Option String := none
  internode_interconnect : Option String := none
  deriving Repr, DecidableEq

/-! ## AuctionFinder (auction_finder.py) -/

/-- The GPU-type block of `_matches_criteria`: skipped unless
`criteria.gpu_type` is truthy; otherwise both sides are lower-cased (an
absent auction `gpu_type` becomes `""`) and the criterion must occur as a
whole word. -/
def gpuTypeOk (auction : Auction) (criteria : ResourcesSpecification) : Bool :=
  !optStrTruthy criteria.gpu_type
    || searchWholeWord (pyLower (criteria.gpu_type.getD ""))
        (pyLower (auction.gpu_type.getD ""))

/-- The GPU-count block of `_matches_criteria`: skipped when
`criteria.num_gpus is None`; otherwise `inventory_quantity` must be present
and at least the requested count. -/
def numGpusOk (auction : Auction) (criteria : ResourcesSpecification) : Bool :=
  match criteria.num_gpus with
  | none => true
  | some expected =>
    match auction.inventory_quantity with
    | none => false
    | some actual => decide (expected ≤ actual)

/-- The internode-interconnect block: skipped unless the criterion is
truthy; otherwise lower-cased exact equality (absent auction value becomes
`""`). -/
def internodeOk (auction : Auction) (criteria : ResourcesSpecification) : Bool :=
  !optStrTruthy criteria.internode_interconnect
    || (pyLower (criteria.internode_interconnect.getD "")
        == pyLower (auction.internode_interconnect.getD ""))

/-- The intranode-interconnect block, same shape as the internode one. -/
def intranodeOk (auction : Auction) (criteria : ResourcesSpecification) : Bool :=
  !optStrTruthy criteria.intranode_interconnect
    || (pyLower (criteria.intranode_interconnect.getD "")
        == pyLower (auction.intranode_interconnect.getD ""))

/-- `AuctionFinder._matches_criteria`: the four blocks in source order,
each an early `return False` on failure. -/
def matchesCriteria (auction : Auction) (criteria : ResourcesSpecification) : Bool :=
  gpuTypeOk auction criteria && numGpusOk auction criteria
    && internodeOk auction criteria && intranodeOk auction criteria

/-- `AuctionFinder.find_matching_auctions`: the source loop appends each
auction passing `_matches_criteria`, preserving input order. -/
def find_matching_auctions
    (auctions : List Auction) (criteria : ResourcesSpecification) : List Auction :=
  match auctions with
  | [] => []
  | a :: rest =>
    if matchesCriteria a criteria then a :: find_matching_auctions rest criteria
    else find_matching_auctions rest criteria

/-! ### Claim-side formulation for C1, in the claim's own words -/

/-- The pattern occurs in `s` as a whole word: at some position, with a
word boundary on each side. -/
def wholeWordOccurs (pat s : List Char) : Prop :=
  ∃ i < s.length + 1, (s.drop i).take pat.length = pat
    ∧ wordBoundaryAt s i = true ∧ wordBoundaryAt s (i + pat.length) = true

/-- Claim side: every criterion present in the specification is satisfied
by the auction; absent criteria never filter. -/
def claimSatisfies (criteria : ResourcesSpecification) (auction : Auction) : Prop :=
  (∀ g, criteria.gpu_type = some g → g ≠ "" →
      wholeWordOccurs (pyLower g) (pyLower (auction.gpu_type.getD "")))
  ∧ (∀ n, criteria.num_gpus = some n →
      ∃ q, auction.inventory_quantity = some q ∧ n ≤ q)
  ∧ (∀ s, criteria.internode_interconnect = some s → s ≠ "" →
      pyLower s = pyLower (auction.internode_interconnect.getD ""))
  ∧ (∀ s, criteria.intranode_interconnect = some s → s ≠ "" →
      pyLower s = pyLower (auction.intranode_interconnect.getD ""))

theorem isEmpty_false_of_ne (s : String) (h : s ≠ "") : s.isEmpty = false := by
  cases hs : s.isEmpty
  · rfl
  · exact absurd ((String.isEmpty_iff s).mp hs) h

theorem searchWholeWord_iff (pat s : List Char) :
    searchWholeWord pat s = true ↔ wholeWordOccurs pat s := by
  unfold searchWholeWord wholeWordOccurs matchWordAt
  simp only [List.any_eq_true, List.mem_range, Bool.and_eq_true, beq_iff_eq]
  constructor
  · rintro ⟨i, hi, ⟨hpat, hb1⟩, hb2⟩
    exact ⟨i, hi, hpat, hb1, hb2⟩
  · rintro ⟨i, hi, hpat, hb1, hb2⟩
    exact ⟨i, hi, ⟨hpat, hb1⟩, hb2⟩

theorem gpuTypeOk_iff (a : Auction) (c : ResourcesSpecification) :
    gpuTypeOk a c = true ↔
      ∀ g, c.gpu_type = some g → g ≠ "" →
        wholeWordOccurs (pyLower g) (pyLower (a.gpu_type.getD "")) := by
  cases hg : c.gpu_type with
  | none => simp [gpuTypeOk, optStrTruthy, hg]
  | some g =>
    by_cases hge : g = ""
    · subst hge
      simp [gpuTypeOk, optStrTruthy, hg, String.isEmpty]
    · simp [gpuTypeOk, optStrTruthy, hg, isEmpty_false_of_ne g hge,
        searchWholeWord_iff, hge]

theorem numGpusOk_iff (a : Auction) (c : ResourcesSpecification) :
    numGpusOk a c = true ↔
      ∀ n, c.num_gpus = some n → ∃ q, a.inventory_quantity = some q ∧ n ≤ q := by
  unfold numGpusOk
  cases c.num_gpus with
  | none => simp
  | some n =>
    cases hq : a.inventory_quantity with
    | none => simp
    | some q => simp

theorem internodeOk_iff (a : Auction) (c : ResourcesSpecification) :
    internodeOk a c = true ↔
      ∀ s, c.internode_interconnect = some s → s ≠ "" →
        pyLower s = pyLower (a.internode_interconnect.getD "") := by
  cases hs : c.internode_interconnect with
  | none => simp [internodeOk, optStrTruthy, hs]
  | some s =>
    by_cases hse : s = ""
    · subst hse
      simp [internodeOk, optStrTruthy, hs, String.isEmpty]
    · simp [internodeOk, optStrTruthy, hs, isEmpty_false_of_ne s hse, hse]

theorem intranodeOk_iff (a : Auction) (c : ResourcesSpecification) :
    intranodeOk a c = true ↔
      ∀ s, c.intranode_interconnect = some s → s ≠ "" →
        pyLower s = pyLower (a.intranode_interconnect.getD "") := by
  cases hs : c.intranode_interconnect with
  | none => simp [intranodeOk, optStrTruthy, hs]
  | some s =>
    by_cases hse : s = ""
    · subst hse
      simp [intranodeOk, optStrTruthy, hs, String.isEmpty]
    · simp [intranodeOk, optStrTruthy, hs, isEmpty_false_of_ne s hse, hse]

theorem matchesCriteria_iff (a : Auction) (c : ResourcesSpecification) :
    matchesCriteria a c = true ↔ claimSatisfies c a := by
  unfold matchesCriteria claimSatisfies
  simp only [Bool.and_eq_true]
  rw [gpuTypeOk_iff, numGpusOk_iff, internodeOk_iff, intranodeOk_iff]
  tauto

/-- C1: `find_matching_auctions` returns exactly the subsequence of the
input (in input order) of auctions satisfying every present criterion of
the specification, absent criteria never filtering; the criteria read as
the claim states them (whole-word lower-cased gpu_type match with absent
auction gpu_type as `""`; present `inventory_quantity` at least the
requested count; case-insensitive exact interconnect equality with absent
values as `""`). -/
theorem find_matching_auctions_filters
    (auctions : List Auction) (criteria : ResourcesSpecification) :
    find_matching_auctions auctions criteria
        = auctions.filter (fun a => matchesCriteria a criteria)
      ∧ ∀ a : Auction, matchesCriteria a criteria = true ↔ claimSatisfies criteria a := by
  constructor
  · induction auctions with
    | nil => rfl
    | cons a rest ih =>
      by_cases h : matchesCriteria a criteria
      · simp [find_matching_auctions, List.filter, h, ih]
      · simp only [Bool.not_eq_true] at h
        simp [find_matching_auctions, List.filter, h, ih]
  · intro a
    exact matchesCriteria_iff a criteria

/-! ## Exceptions of the task-config / task-manager layer

Python `ValueError` is the spec's InvalidInput kind; `TypeError` is the
distinct plain type failure. -/

inductive PyErr where
  | invalidInput (msg : String)
  | typeError (msg : String)
  deriving Repr, DecidableEq

/-! ## Limit price (task_manager.py, base_settings.py) -/

/-- `FoundryBaseSettings.PRIORITY_PRICE_MAPPING` default value; the USD
float literals are exact rationals (each is also exactly representable as
a double, and each product with 100 below is an exact double product, so
the rational arithmetic agrees with the source's float arithmetic on this
table). -/
def PRIORITY_PRICE_MAPPING : List (String × ℚ) :=
  [("critical", 14.99), ("high", 12.29), ("standard", 4.24), ("low", 2.00)]

/-- `str.lower()` as a string-to-string map. -/
def pyLowerStr (s : String) : String :=
  String.mk (pyLower s)

/-- Python `int()` applied to a numeric value: truncation toward zero. -/
def pyIntOfRat (q : ℚ) : Int :=
  q.num.tdiv q.den

/-- The `utility_threshold_price` argument as `float()` sees it: an
already-numeric value, or a raw value `float()` rejects with
`ValueError`. -/
inductive PyFloatArg where
  | num (q : ℚ)
  | nonNumeric (raw : String)
  deriving Repr, DecidableEq

/-- `FlowTaskManager.prepare_limit_price_cents`: a supplied threshold is
converted directly (`int(float(utp) * 100)`), a `ValueError` from
`float()` is re-raised as the InvalidInput message; otherwise the
lower-cased priority is looked up in the settings table and the table
price converted the same way, an unknown priority failing with
InvalidInput. -/
def prepare_limit_price_cents
    (priority : String) (utility_threshold_price : Option PyFloatArg) :
    Except PyErr Int :=
  match utility_threshold_price with
  | some (.num q) => .ok (pyIntOfRat (q * 100))
  | some (.nonNumeric raw) =>
    .error (.invalidInput ("Invalid utility_threshold_price value: " ++ raw))
  | none =>
    match PRIORITY_PRICE_MAPPING.lookup (pyLowerStr priority) with
    | none => .error (.invalidInput ("Invalid or unsupported priority level: " ++ priority))
    | some price => .ok (pyIntOfRat (price * 100))

/-! ### Claim-side formulation for C2 -/

/-- Failure kinds, without the message text (the claim constrains only the
kind). -/
inductive ErrKind where
  | invalidInput
  | typeError
  deriving Repr, DecidableEq

def pyErrKind : PyErr → ErrKind
  | .invalidInput _ => .invalidInput
  | .typeError _ => .typeError

def exceptKind {α : Type} : Except PyErr α → Except ErrKind α
  | .ok v => .ok v
  | .error e => .error (pyErrKind e)

/-- The claim's description of `prepare_limit_price_cents`: a supplied
numeric threshold yields the truncating conversion of `price * 100`; a
non-numeric threshold is an InvalidInput failure; with no threshold the
case-insensitive priority lookup decides, unknown priorities failing with
InvalidInput. -/
def limitPriceSpec
    (priority : String) (utility_threshold_price : Option PyFloatArg) :
    Except ErrKind Int :=
  match utility_threshold_price with
  | some (.num q) => .ok (pyIntOfRat (q * 100))
  | some (.nonNumeric _) => .error .invalidInput
  | none =>
    match PRIORITY_PRICE_MAPPING.lookup (pyLowerStr priority) with
    | some price => .ok (pyIntOfRat (price * 100))
    | none => .error .invalidInput

/-- C2: `prepare_limit_price_cents` refines the claim's description, the
default table sends priority `"standard"` with no threshold to `424`
cents, a threshold of `1.23` yields `123` for every priority, and the
conversion truncates (a threshold of `1.239` also yields `123`, not
`124`). -/
theorem pyIntOfRat_floor (q : ℚ) (h : 0 ≤ q) : pyIntOfRat q = ⌊q⌋ := by
  unfold pyIntOfRat
  rw [Int.tdiv_eq_ediv (Rat.num_nonneg.mpr h) (by positivity), Rat.floor_def]

theorem prepare_limit_price_cents_spec_ok :
    (∀ p utp, exceptKind (prepare_limit_price_cents p utp) = limitPriceSpec p utp)
      ∧ prepare_limit_price_cents "standard" none = .ok 424
      ∧ (∀ p, prepare_limit_price_cents p (some (.num 1.23)) = .ok 123)
      ∧ (∀ p, prepare_limit_price_cents p (some (.num 1.239)) = .ok 123) := by
  refine ⟨?_, ?_, fun p => ?_, fun p => ?_⟩
  · intro p utp
    match utp with
    | some (.num q) => rfl
    | some (.nonNumeric raw) => rfl
    | none =>
      cases h : PRIORITY_PRICE_MAPPING.lookup (pyLowerStr p) with
      | none => simp [prepare_limit_price_cents, limitPriceSpec, exceptKind, pyErrKind, h]
      | some price => simp [prepare_limit_price_cents, limitPriceSpec, exceptKind, h]
  · have h0 : prepare_limit_price_cents "standard" none
        = .ok (pyIntOfRat ((4.24 : ℚ) * 100)) := rfl
    have h2 : ⌊((4.24 : ℚ) * 100)⌋ = (424 : Int) := by norm_num
    rw [h0, pyIntOfRat_floor _ (by norm_num), h2]
  · have h0 : prepare_limit_price_cents p (some (.num 1.23))
        = .ok (pyIntOfRat ((1.23 : ℚ) * 100)) := rfl
    have h2 : ⌊((1.23 : ℚ) * 100)⌋ = (123 : Int) := by norm_num
    rw [h0, pyIntOfRat_floor _ (by norm_num), h2]
  · have h0 : prepare_limit_price_cents p (some (.num 1.239))
        = .ok (pyIntOfRat ((1.239 : ℚ) * 100)) := rfl
    have h2 : ⌊((1.239 : ℚ) * 100)⌋ = (123 : Int) := by norm_num
    rw [h0, pyIntOfRat_floor _ (by norm_num), h2]

/-! ## Ports (task_config/models.py) -/

/-- A Python value held in a `Port` field after construction: `None`, an
`int`, or a `str`.  (Other Python types are rejected before a `Port`
exists and play no part in the checked properties.) -/
inductive PortVal where
  | pyNone
  | pyInt (n : Int)
  | pyStr (s : String)
  deriving Repr, DecidableEq

/-- Value of a digit string (what `int()` returns when `str.isdigit()`
held). -/
def digitsVal (cs : List Char) : Nat :=
  cs.foldl (fun acc c => acc * 10 + (c.toNat - 48)) 0

/-- Python `int(str)` on the strings reachable here: an optional sign
followed by digits.  (Python additionally strips whitespace and allows
digit-group underscores; such strings are not valid port specifications
and are outside every property checked below.) -/
def pyIntParse (cs : List Char) : Option Int :=
  match cs with
  | '+' :: rest =>
    if !rest.isEmpty && rest.all Char.isDigit then some (digitsVal rest) else none
  | '-' :: rest =>
    if !rest.isEmpty && rest.all Char.isDigit then some (-(digitsVal rest : Int)) else none
  | _ =>
    if !cs.isEmpty && cs.all Char.isDigit then some (digitsVal cs) else none

/-- `str.isdigit()` for ASCII strings: non-empty and all digits. -/
def pyIsDigit (s : String) : Bool :=
  !s.isEmpty && s.toList.all Char.isDigit

/-- `validate_single_port`: the port must lie in `[1, 65535]`. -/
def validate_single_port (port_value : Int) (field_name : String) : Except PyErr Unit :=
  if 1 ≤ port_value ∧ port_value ≤ 65535 then .ok ()
  else .error (.invalidInput ("'" ++ field_name ++ "' port number must be between 1 and 65535."))

/-- `str.split("-")` at every dash. -/
def splitDash (s : String) : List (List Char) :=
  s.toList.splitOn '-'

/-- `validate_port_range`: exactly two dash-separated parts, each an
integer (unpacking or parse failure is one InvalidInput message), with
`1 ≤ start ≤ end ≤ 65535`.  Returns the parsed bounds, which
`expand_port_spec` re-derives identically in the source. -/
def validate_port_range (port_range_str : String) (field_name : String) :
    Except PyErr (Int × Int) :=
  match splitDash port_range_str with
  | [a, b] =>
    match pyIntParse a, pyIntParse b with
    | some s, some e =>
      if 1 ≤ s ∧ s ≤ e ∧ e ≤ 65535 then .ok (s, e)
      else .error (.invalidInput ("'" ++ field_name ++ "' port numbers must be between 1 and 65535."))
    | _, _ =>
      .error (.invalidInput ("'" ++ field_name ++ "' port range must contain valid integers."))
  | _ =>
    .error (.invalidInput ("'" ++ field_name ++ "' port range must contain valid integers."))

/-- `list(range(s, e + 1))`. -/
def intRange (s e : Int) : List Int :=
  (List.range (e + 1 - s).toNat).map (fun k => s + (k : Int))

/-- `expand_port_spec`: an `int` passes through unvalidated in a one-item
list; a dashed string is validated as a range and expanded inclusively; a
plain string must be all digits and a valid single port.  Calling it on
`None` raises a plain `TypeError` (the `"-" in port_spec` membership test
on a non-string). -/
def expand_port_spec (port_spec : PortVal) : Except PyErr (List Int) :=
  match port_spec with
  | .pyNone => .error (.typeError "argument of type 'NoneType' is not iterable")
  | .pyInt n => .ok [n]
  | .pyStr s =>
    if s.toList.contains '-' then
      match validate_port_range s "(range)" with
      | .error e => .error e
      | .ok (startPort, endPort) => .ok (intRange startPort endPort)
    else if !pyIsDigit s then
      .error (.invalidInput ("Invalid port specification '" ++ s ++ "': must be an integer."))
    else
      match validate_single_port (digitsVal s.toList) "(single)" with
      | .error e => .error e
      | .ok _ => .ok [(digitsVal s.toList : Int)]

/-- `validate_port_value`: `None` is rejected with InvalidInput
(ValueError); ints and strings get the single/range checks. -/
def validate_port_value (port_value : PortVal) (field_name : String) : Except PyErr Unit :=
  match port_value with
  | .pyNone => .error (.invalidInput ("'" ++ field_name ++ "' port cannot be None."))
  | .pyInt n => validate_single_port n field_name
  | .pyStr s =>
    if s.toList.contains '-' then
      match validate_port_range s field_name with
      | .error e => .error e
      | .ok _ => .ok ()
    else if !pyIsDigit s then
      .error (.invalidInput ("'" ++ field_name ++ "' port must be an integer."))
    else validate_single_port (digitsVal s.toList) field_name

/-- The `Port` model's fields after construction. -/
structure Port where
  external : PortVal := .pyNone
  internal : PortVal := .pyNone
  protocol : String := "tcp"
  deriving Repr, DecidableEq

/-- Whether a keyword argument was supplied to the model constructor. -/
inductive FieldInput where
  | omitted
  | supplied (v : PortVal)
  deriving Repr, DecidableEq

/-- pydantic construction of a `Port` from keyword arguments: the
`external`/`internal` field validator runs only on supplied values
(`validate_default` is off, so an omitted field keeps its default `None`
unvalidated). -/
def validatedField (input : FieldInput) (field_name : String) : Except PyErr PortVal :=
  match input with
  | .omitted => .ok .pyNone
  | .supplied v =>
    match validate_port_value v field_name with
    | .error e => .error e
    | .ok _ => .ok v

def mkPort (ext inte : FieldInput) : Except PyErr Port :=
  match validatedField ext "external" with
  | .error e => .error e
  | .ok ev =>
    match validatedField inte "internal" with
    | .error e => .error e
    | .ok iv => .ok { external := ev, internal := iv }

/-- How an f-string renders a `Port` field value. -/
def portValFormat : PortVal → String
  | .pyNone => "None"
  | .pyInt n => toString n
  | .pyStr s => s

/-- `Port.get_port_mappings`: expand both sides, fail with InvalidInput on
a length mismatch, else zip element-wise. -/
def get_port_mappings (p : Port) : Except PyErr (List (Int × Int)) :=
  match expand_port_spec p.external with
  | .error e => .error e
  | .ok external_ports =>
    match expand_port_spec p.internal with
    | .error e => .error e
    | .ok internal_ports =>
      if external_ports.length ≠ internal_ports.length then
        .error (.invalidInput
          ("Port ranges do not match in length for external (" ++ portValFormat p.external
            ++ ") and internal (" ++ portValFormat p.internal ++ ") ports."))
      else
        .ok (external_ports.zip internal_ports)

/-- C4: when both fields expand successfully, `get_port_mappings` returns
the element-wise zip of the expanded sequences, and fails with an
InvalidInput-kind error exactly when the expanded lengths differ. -/
theorem get_port_mappings_zips (p : Port) (es is : List Int)
    (he : expand_port_spec p.external = .ok es)
    (hi : expand_port_spec p.internal = .ok is) :
    (es.length = is.length → get_port_mappings p = .ok (es.zip is))
      ∧ (es.length ≠ is.length →
          ∃ m, get_port_mappings p = .error (.invalidInput m)) := by
  unfold get_port_mappings
  rw [he, hi]
  constructor
  · intro hlen
    simp [hlen]
  · intro hlen
    refine ⟨"Port ranges do not match in length for external (" ++ portValFormat p.external
      ++ ") and internal (" ++ portValFormat p.internal ++ ") ports.", ?_⟩
    simp [hlen]

/-- Witness for C4 at the claim's concrete inputs: matching ranges
`"6006-6008"`/`"6006-6008"` zip element-wise, and the mismatched ranges
`"1-3"`/`"1-2"` fail with InvalidInput. -/
theorem get_port_mappings_zips_witness :
    get_port_mappings { external := .pyStr "6006-6008", internal := .pyStr "6006-6008" }
        = .ok [(6006, 6006), (6007, 6007), (6008, 6008)]
      ∧ ∃ m, get_port_mappings { external := .pyStr "1-3", internal := .pyStr "1-2" }
        = .error (.invalidInput m) := by
  constructor
  · have h := get_port_mappings_zips
      { external := .pyStr "6006-6008", internal := .pyStr "6006-6008" }
      [6006, 6007, 6008] [6006, 6007, 6008] (by rfl) (by rfl)
    exact h.1 rfl
  · have h := get_port_mappings_zips
      { external := .pyStr "1-3", internal := .pyStr "1-2" }
      [1, 2, 3] [1, 2] (by rfl) (by rfl)
    exact h.2 (by decide)

/-- C9: a `Port` with both fields omitted is accepted at construction with
both values `None` (the validators never see the defaults), although an
explicitly supplied `None` is rejected with InvalidInput; and
`get_port_mappings` on such a `Port` fails with a plain `TypeError` (the
membership test on a non-string), which is not the InvalidInput kind. -/
theorem port_omitted_fields_type_error :
    mkPort .omitted .omitted = .ok { external := .pyNone, internal := .pyNone }
      ∧ (∃ m, mkPort (.supplied .pyNone) .omitted = .error (.invalidInput m))
      ∧ get_port_mappings { external := .pyNone, internal := .pyNone }
          = .error (.typeError "argument of type 'NoneType' is not iterable")
      ∧ ∀ m, (PyErr.typeError "argument of type 'NoneType' is not iterable")
          ≠ PyErr.invalidInput m := by
  refine ⟨rfl, ⟨_, rfl⟩, rfl, fun m h => PyErr.noConfusion h⟩

/-! ## Auction serialization (models/auction.py) -/

/-- A JSON-ish value in a dumped model. -/
inductive JVal where
  | jStr (s : String)
  | jInt (n : Int)
  | jRat (q : ℚ)
  | jNull
  deriving Repr, DecidableEq

def jOptStr : Option String → JVal
  | none => .jNull
  | some s => .jStr s

def jOptInt : Option Int → JVal
  | none => .jNull
  | some n => .jInt n

def jOptRat : Option ℚ → JVal
  | none => .jNull
  | some q => .jRat q

/-- pydantic `BaseModel.model_dump` for `Auction` (declared fields in
declaration order): keyed by field name, or by wire alias when `by_alias`
is set (`id ↦ cluster_id`, `num_gpus ↦ num_gpu`; `region_id`'s declared
alias equals its name). -/
def auctionBaseDump (a : Auction) (by_alias : Bool) : List (String × JVal) :=
  [(if by_alias then "cluster_id" else "id", .jStr a.id),
   ("gpu_type", jOptStr a.gpu_type),
   ("inventory_quantity", jOptInt a.inventory_quantity),
   (if by_alias then "num_gpu" else "num_gpus", jOptInt a.num_gpus),
   ("intranode_interconnect", jOptStr a.intranode_interconnect),
   ("internode_interconnect", jOptStr a.internode_interconnect),
   ("fcp_instance", jOptStr a.fcp_instance),
   ("instance_type_id", jOptStr a.instance_type_id),
   ("last_price", jOptRat a.last_price),
   ("region", jOptStr a.region),
   ("region_id", jOptStr a.region_id),
   ("resource_specification_id", jOptStr a.resource_specification_id)]

/-- `dict.pop(key, None)`: drop the key's entry (keys are unique). -/
def popKey (key : String) : List (String × JVal) → List (String × JVal)
  | [] => []
  | kv :: rest => if kv.1 = key then rest else kv :: popKey key rest

/-- `Auction.model_dump`: the base dump with the `"cluster_id"` key
unconditionally removed. -/
def Auction.model_dump (a : Auction) (by_alias : Bool := false) :
    List (String × JVal) :=
  popKey "cluster_id" (auctionBaseDump a by_alias)

/-- C10: the alias serialization of an `Auction` carries the identifier
under neither `"cluster_id"` nor `"id"` — the override drops the only key
holding it — while the default field-name serialization keeps it under
`"id"` (and has no `"cluster_id"` key to lose). -/
theorem auction_model_dump_drops_identifier (a : Auction) :
    ((a.model_dump true).map Prod.fst).contains "cluster_id" = false
      ∧ ((a.model_dump true).map Prod.fst).contains "id" = false
      ∧ (a.model_dump false).lookup "id" = some (.jStr a.id)
      ∧ ((a.model_dump false).map Prod.fst).contains "cluster_id" = false := by
  refine ⟨rfl, rfl, rfl, rfl⟩

/-! ## Foundry facade: instance-type lookup (clients/foundry_client.py) -/

/-- An `APIError` as `FoundryClient.get_instance_type` inspects it: its
rendered message (`str(err)`), and the status of an attached response when
one exists. -/
structure APIErrData where
  msg : String
  responseStatus : Option Nat
  deriving Repr, DecidableEq

/-- `flow/models/instance_type.py`: `DetailedInstanceType` (all capability
fields default to absent). -/
structure DetailedInstanceType where
  id : String
  name : String
  num_cpus : Option Int := none
  num_gpus : Option Int := none
  memory_gb : Option Int := none
  architecture : Option String := none
  deriving Repr, DecidableEq

/-- Python substring membership `pat in s`. -/
def containsSub (pat s : List Char) : Bool :=
  (List.range (s.length + 1)).any (fun i => (s.drop i).take pat.length == pat)

/-- The 404 detection in `get_instance_type`: `"404" in str(err)` or an
attached response whose status code is 404. -/
def isNotFoundErr (e : APIErrData) : Bool :=
  containsSub "404".toList e.msg.toList || e.responseStatus == some 404

/-- The placeholder the facade substitutes for a missing instance type. -/
def fallbackInstanceType (instance_type_id : String) : DetailedInstanceType :=
  { id := instance_type_id, name := "[Unknown / Not Found]",
    num_cpus := none, num_gpus := none, memory_gb := none, architecture := none }

/-- `FoundryClient.get_instance_type`, over the outcome of the underlying
`GET /instance_types/{id}` call: a successful body passes through; an
`APIError` detected as a 404 becomes the placeholder; any other error
re-raises unchanged. -/
def get_instance_type (instance_type_id : String)
    (request_result : Except APIErrData DetailedInstanceType) :
    Except APIErrData DetailedInstanceType :=
  match request_result with
  | .ok d => .ok d
  | .error err =>
    if isNotFoundErr err then .ok (fallbackInstanceType instance_type_id)
    else .error err

/-- C5: a failing instance-type call detected as 404 (from the message
text or an attached response status) yields the placeholder — id the
requested one, name `"[Unknown / Not Found]"`, every capability field
absent — and every other error propagates unchanged. -/
theorem get_instance_type_404_fallback
    (instance_type_id : String) (e : APIErrData) :
    get_instance_type instance_type_id (.error e)
        = (if isNotFoundErr e then .ok (fallbackInstanceType instance_type_id)
           else .error e)
      ∧ (isNotFoundErr e = true ↔
          (∃ i < e.msg.toList.length + 1,
              (e.msg.toList.drop i).take ("404".toList.length) = "404".toList)
            ∨ e.responseStatus = some 404)
      ∧ (fallbackInstanceType instance_type_id).id = instance_type_id
      ∧ (fallbackInstanceType instance_type_id).name = "[Unknown / Not Found]"
      ∧ (fallbackInstanceType instance_type_id).num_cpus = none
      ∧ (fallbackInstanceType instance_type_id).num_gpus = none
      ∧ (fallbackInstanceType instance_type_id).memory_gb = none
      ∧ (fallbackInstanceType instance_type_id).architecture = none := by
  refine ⟨rfl, ?_, rfl, rfl, rfl, rfl, rfl, rfl⟩
  unfold isNotFoundErr containsSub
  simp [List.any_eq_true]

/-! ## Storage client: region resolution (clients/storage_client.py) -/

/-- `flow/models/storage_responses.py`: the fields of `RegionResponse`
that `_resolve_region_id` reads. -/
structure RegionResponse where
  region_id : String
  name : String
  deriving Repr, DecidableEq

/-- The `ValueError` of `_resolve_region_id` — the spec's NotFound
kind. -/
inductive StorageErr where
  | notFound (msg : String)
  deriving Repr, DecidableEq

/-- First loop of `_resolve_region_id`: scan for an exact `region_id`
match. -/
def findByRegionId (region_str : String) : List RegionResponse → Option String
  | [] => none
  | r :: rest =>
    if r.region_id = region_str then some r.region_id
    else findByRegionId region_str rest

/-- Second loop: scan for an exact `name` match, returning that region's
`region_id`. -/
def findByName (region_str : String) : List RegionResponse → Option String
  | [] => none
  | r :: rest =>
    if r.name = region_str then some r.region_id
    else findByName region_str rest

/-- `StorageClient._resolve_region_id` over the fetched region list: the
two sequential loops, then the NotFound failure. -/
def resolve_region_id (all_regions : List RegionResponse) (region_str : String) :
    Except StorageErr String :=
  match findByRegionId region_str all_regions with
  | some rid => .ok rid
  | none =>
    match findByName region_str all_regions with
    | some rid => .ok rid
    | none => .error (.notFound ("No matching region found for '" ++ region_str ++ "'"))

/-- `uuid.UUID(value)` well-formedness, following the standard parser:
drop every `urn:` then every `uuid:`, strip `{`/`}` from the ends, drop
dashes, and require exactly 32 hex digits.  (`int(hex, 16)`'s additional
tolerance for a sign or underscores is not modelled; no checked property
touches such inputs.) -/
def removeUrn : List Char → List Char
  | 'u' :: 'r' :: 'n' :: ':' :: rest => removeUrn rest
  | c :: rest => c :: removeUrn rest
  | [] => []

def removeUuid : List Char → List Char
  | 'u' :: 'u' :: 'i' :: 'd' :: ':' :: rest => removeUuid rest
  | c :: rest => c :: removeUuid rest
  | [] => []

def isBrace (c : Char) : Bool :=
  c = '{' || c = '}'

def stripBraces (s : List Char) : List Char :=
  ((s.dropWhile isBrace).reverse.dropWhile isBrace).reverse

def isHexDigitChar (c : Char) : Bool :=
  c.isDigit || ('a' ≤ c && c ≤ 'f') || ('A' ≤ c && c ≤ 'F')

def is_valid_uuid (value : String) : Bool :=
  let hexs := (stripBraces (removeUuid (removeUrn value.toList))).filter (fun c => c ≠ '-')
  hexs.length == 32 && hexs.all isHexDigitChar

/-- The region handling inside `StorageClient.create_disk`: a truthy
`region_id` that does not parse as a UUID is resolved through
`_resolve_region_id`; otherwise it is used as supplied. -/
def create_disk_region_id (all_regions : List RegionResponse)
    (region_id : Option String) : Except StorageErr (Option String) :=
  match region_id with
  | none => .ok none
  | some rid =>
    if !rid.isEmpty && !is_valid_uuid rid then
      match resolve_region_id all_regions rid with
      | .ok r => .ok (some r)
      | .error e => .error e
    else .ok (some rid)

/-! ### Claim-side formulation for C6 -/

/-- The claim's description of resolution: exact `region_id` match wins
over the whole list; only failing that, the first exact `name` match; else
NotFound. -/
def resolveSpec (regions : List RegionResponse) (s : String) : Except StorageErr String :=
  if regions.any (fun r => r.region_id == s) then .ok s
  else
    match regions.find? (fun r => r.name == s) with
    | some r => .ok r.region_id
    | none => .error (.notFound ("No matching region found for '" ++ s ++ "'"))

theorem findByRegionId_eq (s : String) (regions : List RegionResponse) :
    findByRegionId s regions
      = if regions.any (fun r => r.region_id == s) then some s else none := by
  induction regions with
  | nil => rfl
  | cons r rest ih =>
    by_cases h : r.region_id = s
    · simp [findByRegionId, h]
    · simp [findByRegionId, h, ih]

theorem findByName_eq (s : String) (regions : List RegionResponse) :
    findByName s regions
      = (regions.find? (fun r => r.name == s)).map (fun r => r.region_id) := by
  induction regions with
  | nil => rfl
  | cons r rest ih =>
    by_cases h : r.name = s
    · have hb : (r.name == s) = true := by simp [h]
      simp [findByName, List.find?, h, hb]
    · have hb : (r.name == s) = false := by simp [h]
      simp [findByName, List.find?, h, hb, ih]

/-- C6: `_resolve_region_id` realizes the claim's two-pass algorithm
(exact `region_id` match first over the full list, then first exact `name`
match, else NotFound), and `create_disk` applies it to a supplied
`region_id` only when that value is not a well-formed UUID: a UUID-valid
value passes through untouched, a truthy non-UUID value goes through
resolution. -/
theorem resolve_region_id_two_pass
    (regions : List RegionResponse) (s rid : String) :
    resolve_region_id regions s = resolveSpec regions s
      ∧ (is_valid_uuid rid = true →
          create_disk_region_id regions (some rid) = .ok (some rid))
      ∧ (rid ≠ "" → is_valid_uuid rid = false →
          create_disk_region_id regions (some rid)
            = (resolve_region_id regions rid).map (fun r => some r)) := by
  refine ⟨?_, ?_, ?_⟩
  · unfold resolve_region_id resolveSpec
    rw [findByRegionId_eq, findByName_eq]
    by_cases h : regions.any (fun r => r.region_id == s)
    · simp [h]
    · simp only [h, if_false, Bool.false_eq_true]
      cases regions.find? (fun r => r.name == s) with
      | none => simp
      | some r => simp
  · intro hvalid
    simp only [create_disk_region_id]
    simp [hvalid]
  · intro hne hinvalid
    simp only [create_disk_region_id]
    rw [hinvalid, isEmpty_false_of_ne rid hne]
    simp only [Bool.not_false, Bool.and_self, if_true]
    cases resolve_region_id regions rid with
    | ok r => rfl
    | error e => rfl

/-- Witness for C6: a well-formed UUID passes through `create_disk`
untouched even with no region list to resolve against, while the region
name `"us-central1-a"` (not a UUID) is resolved to the listed region's
id. -/
theorem resolve_region_id_two_pass_witness :
    create_disk_region_id []
        (some "123e4567-e89b-12d3-a456-426614174000")
        = .ok (some "123e4567-e89b-12d3-a456-426614174000")
      ∧ create_disk_region_id
          [{ region_id := "123e4567-e89b-12d3-a456-426614174000",
             name := "us-central1-a" }]
          (some "us-central1-a")
        = .ok (some "123e4567-e89b-12d3-a456-426614174000") := by
  constructor
  · exact (resolve_region_id_two_pass [] "x"
      "123e4567-e89b-12d3-a456-426614174000").2.1 (by decide)
  · have h := (resolve_region_id_two_pass
      [{ region_id := "123e4567-e89b-12d3-a456-426614174000",
         name := "us-central1-a" }]
      "x" "us-central1-a").2.2 (by decide) (by decide)
    rw [h]
    rfl

/-! ## Authenticator (clients/authenticator.py) -/

/-- The login HTTP response as `Authenticator.authenticate` inspects it:
status code, and the decoded JSON body (`none` when undecodable),
flattened to the string-valued pairs the code reads. -/
structure LoginResponse where
  status : Nat
  json : Option (List (String × String))
  deriving Repr, DecidableEq

/-- The authentication failure kinds the status branch distinguishes. -/
inductive AuthErr where
  | invalidCredentials (msg : String)
  | authenticationFailure (msg : String)
  deriving Repr, DecidableEq

/-- `Authenticator.authenticate`, from the response on: status ≥ 400
fails (401 as InvalidCredentials, otherwise AuthenticationFailure with
the code); then a non-JSON body, a missing `access_token`, and an empty
`access_token` each fail; else the token is returned. -/
def authenticate (response : LoginResponse) : Except AuthErr String :=
  if response.status ≥ 400 then
    if response.status = 401 then
      .error (.invalidCredentials "Invalid email or password.")
    else
      .error (.authenticationFailure
        ("Authentication failed with status code " ++ toString response.status ++ "."))
  else
    match response.json with
    | none => .error (.authenticationFailure "Invalid response format.")
    | some kvs =>
      match kvs.lookup "access_token" with
      | none => .error (.authenticationFailure "Access token not found in response.")
      | some token =>
        if token.isEmpty then
          .error (.authenticationFailure "Access token not found in response.")
        else .ok token

/-- C7 counterexample: at status 401 the raised message is
`"Invalid email or password."` (with a trailing period), so the claim's
message `"Invalid email or password"` is not the one carried. -/
theorem authenticate_401_message_counterexample :
    authenticate { status := 401, json := none }
      ≠ .error (.invalidCredentials "Invalid email or password") := by
  intro h
  have h0 : authenticate { status := 401, json := none }
      = .error (.invalidCredentials "Invalid email or password.") := rfl
  rw [h0] at h
  injection h with h1
  injection h1 with h2
  exact absurd h2 (by decide)

/-- C7 amended: every login response with status ≥ 400 fails — as
InvalidCredentials with the message `"Invalid email or password."`
exactly when the status is 401, as AuthenticationFailure carrying the
status code for every other status ≥ 400 — and no token is returned in
either case. -/
theorem authenticate_error_statuses (r : LoginResponse) (h : 400 ≤ r.status) :
    (r.status = 401 →
        authenticate r = .error (.invalidCredentials "Invalid email or password."))
      ∧ (r.status ≠ 401 →
        authenticate r = .error (.authenticationFailure
          ("Authentication failed with status code " ++ toString r.status ++ ".")))
      ∧ ∀ t, authenticate r ≠ .ok t := by
  unfold authenticate
  rw [if_pos h]
  refine ⟨fun h401 => ?_, fun h401 => ?_, fun t => ?_⟩
  · rw [if_pos h401]
  · rw [if_neg h401]
  · by_cases h401 : r.status = 401
    · rw [if_pos h401]
      intro hc
      exact Except.noConfusion hc
    · rw [if_neg h401]
      intro hc
      exact Except.noConfusion hc

/-- Witness for C7 (amended): status 401 gives InvalidCredentials with
the exact source message; status 500 gives AuthenticationFailure naming
the code. -/
theorem authenticate_error_statuses_witness :
    authenticate { status := 401, json := none }
        = .error (.invalidCredentials "Invalid email or password.")
      ∧ authenticate { status := 500, json := none }
        = .error (.authenticationFailure "Authentication failed with status code 500.") := by
  constructor
  · exact (authenticate_error_statuses { status := 401, json := none } (by decide)).1 rfl
  · exact (authenticate_error_statuses { status := 500, json := none } (by decide)).2.1 (by decide)

/-! ## Foundry facade: bid placement (clients/foundry_client.py,
clients/fcp_client.py) -/

/-- `flow/models/bid_disk_attachment.py`: the fields of
`BidDiskAttachment`. -/
structure BidDiskAttachment where
  disk_id : String
  volume_name : String
  deriving Repr, DecidableEq

/-- `flow/models/bid_payload.py`: the fields of `BidPayload`. -/
structure BidPayload where
  cluster_id : String
  instance_quantity : Int
  instance_type_id : String
  limit_price_cents : Int
  order_name : String
  project_id : String
  ssh_key_ids : List String
  startup_script : Option String := none
  user_id : String
  disk_attachments : List BidDiskAttachment := []
  deriving Repr, DecidableEq

/-- `bid_payload.model_copy(update={"project_id": project_id})` inside
`FoundryClient.place_bid`: the payload handed on to
`FCPClient.place_bid`. -/
def foundry_place_bid_payload (project_id : String) (bid_payload : BidPayload) :
    BidPayload :=
  { bid_payload with project_id := project_id }

/-- The request `FCPClient.place_bid` issues: the bid endpoint under the
payload's own project id, with the payload as body. -/
structure FCPBidRequest where
  path : String
  payload : BidPayload
  deriving Repr, DecidableEq

def fcp_place_bid (payload : BidPayload) : FCPBidRequest :=
  { path := "/projects/" ++ payload.project_id ++ "/spot-auctions/bids",
    payload := payload }

def foundry_place_bid (project_id : String) (bid_payload : BidPayload) :
    FCPBidRequest :=
  fcp_place_bid (foundry_place_bid_payload project_id bid_payload)

/-- C8: the payload the facade submits carries the facade's `project_id`
argument — overriding whatever the supplied payload held — while every
other field reaches the low-level client unchanged, and the request path
is the bid endpoint under that project id. -/
theorem place_bid_overrides_project_id (project_id : String) (p : BidPayload) :
    (foundry_place_bid project_id p).payload.project_id = project_id
      ∧ (foundry_place_bid project_id p).payload.cluster_id = p.cluster_id
      ∧ (foundry_place_bid project_id p).payload.instance_quantity = p.instance_quantity
      ∧ (foundry_place_bid project_id p).payload.instance_type_id = p.instance_type_id
      ∧ (foundry_place_bid project_id p).payload.limit_price_cents = p.limit_price_cents
      ∧ (foundry_place_bid project_id p).payload.order_name = p.order_name
      ∧ (foundry_place_bid project_id p).payload.ssh_key_ids = p.ssh_key_ids
      ∧ (foundry_place_bid project_id p).payload.startup_script = p.startup_script
      ∧ (foundry_place_bid project_id p).payload.user_id = p.user_id
      ∧ (foundry_place_bid project_id p).payload.disk_attachments = p.disk_attachments
      ∧ (foundry_place_bid project_id p).path
          = "/projects/" ++ project_id ++ "/spot-auctions/bids" := by
  refine ⟨rfl, rfl, rfl, rfl, rfl, rfl, rfl, rfl, rfl, rfl, rfl⟩

/-! ## Bootstrap script encoding (startup_script_builder.py)

`inject_bootstrap_script` compresses the full startup script's UTF-8 bytes
with `gzip`, base64-encodes the result and renders it into the
`bootstrap_script_segment` template.  UTF-8 and base64 are implemented and
proved invertible here; the gzip deflate stream is a third-party library
whose compressor/decompressor pair enters as a parameter constrained only
by its documented lossless contract (and by producing bytes).  Bytes are
`Nat` below 256. -/

def utf8EncodeChar (n : Nat) : List Nat :=
  if n < 0x80 then [n]
  else if n < 0x800 then [0xC0 + n / 64, 0x80 + n % 64]
  else if n < 0x10000 then [0xE0 + n / 4096, 0x80 + n / 64 % 64, 0x80 + n % 64]
  else [0xF0 + n / 262144, 0x80 + n / 4096 % 64, 0x80 + n / 64 % 64, 0x80 + n % 64]

def utf8Encode : List Char → List Nat
  | [] => []
  | c :: cs => utf8EncodeChar c.toNat ++ utf8Encode cs

def isContByte (b : Nat) : Bool := 0x80 ≤ b && b < 0xC0

mutual

def utf8Decode : List Nat → Option (List Nat)
  | [] => some []
  | b :: rest =>
    if b < 0x80 then (utf8Decode rest).map (fun t => b :: t)
    else if b < 0xC0 then none
    else if b < 0xE0 then utf8DecodeTwo b rest
    else if b < 0xF0 then utf8DecodeThree b rest
    else if b < 0xF8 then utf8DecodeFour b rest
    else none
termination_by l => (l.length, 1)

def utf8DecodeTwo (b : Nat) : List Nat → Option (List Nat)
  | b1 :: rest2 =>
    if isContByte b1 then
      (utf8Decode rest2).map (fun t => ((b - 0xC0) * 64 + (b1 - 0x80)) :: t)
    else none
  | _ => none
termination_by l => (l.length, 0)

def utf8DecodeThree (b : Nat) : List Nat → Option (List Nat)
  | b1 :: b2 :: rest2 =>
    if isContByte b1 && isContByte b2 then
      (utf8Decode rest2).map
        (fun t => ((b - 0xE0) * 4096 + (b1 - 0x80) * 64 + (b2 - 0x80)) :: t)
    else none
  | _ => none
termination_by l => (l.length, 0)

def utf8DecodeFour (b : Nat) : List Nat → Option (List Nat)
  | b1 :: b2 :: b3 :: rest2 =>
    if isContByte b1 && isContByte b2 && isContByte b3 then
      (utf8Decode rest2).map
        (fun t => ((b - 0xF0) * 262144 + (b1 - 0x80) * 4096
          + (b2 - 0x80) * 64 + (b3 - 0x80)) :: t)
    else none
  | _ => none
termination_by l => (l.length, 0)

end

theorem utf8Decode_encodeChar (n : Nat) (h : n < 0x110000) (rest : List Nat) :
    utf8Decode (utf8EncodeChar n ++ rest) = (utf8Decode rest).map (fun t => n :: t) := by
  by_cases h1 : n < 0x80
  · have he : utf8EncodeChar n = [n] := by rw [utf8EncodeChar, if_pos h1]
    rw [he]
    show utf8Decode (n :: rest) = _
    rw [utf8Decode, if_pos h1]
  · by_cases h2 : n < 0x800
    · have he : utf8EncodeChar n = [0xC0 + n / 64, 0x80 + n % 64] := by
        rw [utf8EncodeChar, if_neg h1, if_pos h2]
      rw [he]
      show utf8Decode ((0xC0 + n / 64) :: (0x80 + n % 64) :: rest) = _
      have c1 : ¬(0xC0 + n / 64 < 0x80) := by omega
      have c2 : ¬(0xC0 + n / 64 < 0xC0) := by omega
      have c3 : 0xC0 + n / 64 < 0xE0 := by omega
      have c4 : isContByte (0x80 + n % 64) = true := by
        simp only [isContByte, Bool.and_eq_true, decide_eq_true_eq]
        omega
      rw [utf8Decode, if_neg c1, if_neg c2, if_pos c3, utf8DecodeTwo, c4, if_pos rfl]
      have hv : (0xC0 + n / 64 - 0xC0) * 64 + (0x80 + n % 64 - 0x80) = n := by omega
      rw [hv]
    · by_cases h3 : n < 0x10000
      · have he : utf8EncodeChar n
            = [0xE0 + n / 4096, 0x80 + n / 64 % 64, 0x80 + n % 64] := by
          rw [utf8EncodeChar, if_neg h1, if_neg h2, if_pos h3]
        rw [he]
        show utf8Decode ((0xE0 + n / 4096) :: (0x80 + n / 64 % 64) :: (0x80 + n % 64) :: rest) = _
        have c1 : ¬(0xE0 + n / 4096 < 0x80) := by omega
        have c2 : ¬(0xE0 + n / 4096 < 0xC0) := by omega
        have c3 : ¬(0xE0 + n / 4096 < 0xE0) := by omega
        have c4 : 0xE0 + n / 4096 < 0xF0 := by omega
        have c5 : (isContByte (0x80 + n / 64 % 64) && isContByte (0x80 + n % 64)) = true := by
          simp only [isContByte, Bool.and_eq_true, decide_eq_true_eq]
          omega
        rw [utf8Decode, if_neg c1, if_neg c2, if_neg c3, if_pos c4, utf8DecodeThree, c5, if_pos rfl]
        have hv : (0xE0 + n / 4096 - 0xE0) * 4096 + (0x80 + n / 64 % 64 - 0x80) * 64
            + (0x80 + n % 64 - 0x80) = n := by omega
        rw [hv]
      · have he : utf8EncodeChar n
            = [0xF0 + n / 262144, 0x80 + n / 4096 % 64, 0x80 + n / 64 % 64, 0x80 + n % 64] := by
          rw [utf8EncodeChar, if_neg h1, if_neg h2, if_neg h3]
        rw [he]
        show utf8Decode ((0xF0 + n / 262144) :: (0x80 + n / 4096 % 64)
          :: (0x80 + n / 64 % 64) :: (0x80 + n % 64) :: rest) = _
        have c1 : ¬(0xF0 + n / 262144 < 0x80) := by omega
        have c2 : ¬(0xF0 + n / 262144 < 0xC0) := by omega
        have c3 : ¬(0xF0 + n / 262144 < 0xE0) := by omega
        have c4 : ¬(0xF0 + n / 262144 < 0xF0) := by omega
        have c5 : 0xF0 + n / 262144 < 0xF8 := by omega
        have c6 : (isContByte (0x80 + n / 4096 % 64) && isContByte (0x80 + n / 64 % 64)
            && isContByte (0x80 + n % 64)) = true := by
          simp only [isContByte, Bool.and_eq_true, decide_eq_true_eq]
          omega
        rw [utf8Decode, if_neg c1, if_neg c2, if_neg c3, if_neg c4, if_pos c5, utf8DecodeFour, c6, if_pos rfl]
        have hv : (0xF0 + n / 262144 - 0xF0) * 262144 + (0x80 + n / 4096 % 64 - 0x80) * 4096
            + (0x80 + n / 64 % 64 - 0x80) * 64 + (0x80 + n % 64 - 0x80) = n := by omega
        rw [hv]

theorem char_toNat_lt (c : Char) : c.toNat < 0x110000 := by
  have h := c.valid
  rcases h with h | ⟨h1, h2⟩
  · have hh : c.val.toNat < 0xd800 := h
    calc c.toNat = c.val.toNat := rfl
    _ < 0x110000 := by omega
  · have hh : c.val.toNat < 0x110000 := h2
    calc c.toNat = c.val.toNat := rfl
    _ < 0x110000 := hh

theorem utf8Encode_decode (s : List Char) :
    utf8Decode (utf8Encode s) = some (s.map Char.toNat) := by
  induction s with
  | nil =>
    show utf8Decode [] = some []
    rw [utf8Decode]
  | cons c cs ih =>
    show utf8Decode (utf8EncodeChar c.toNat ++ utf8Encode cs) = _
    rw [utf8Decode_encodeChar c.toNat (char_toNat_lt c), ih]
    rfl

theorem utf8EncodeChar_lt (n : Nat) (h : n < 0x110000) :
    ∀ b ∈ utf8EncodeChar n, b < 256 := by
  intro b hb
  rw [utf8EncodeChar] at hb
  by_cases h1 : n < 0x80
  · rw [if_pos h1] at hb
    simp at hb
    omega
  · rw [if_neg h1] at hb
    by_cases h2 : n < 0x800
    · rw [if_pos h2] at hb
      simp at hb
      rcases hb with rfl | rfl <;> omega
    · rw [if_neg h2] at hb
      by_cases h3 : n < 0x10000
      · rw [if_pos h3] at hb
        simp at hb
        rcases hb with rfl | rfl | rfl <;> omega
      · rw [if_neg h3] at hb
        simp at hb
        rcases hb with rfl | rfl | rfl | rfl <;> omega

theorem utf8Encode_lt (s : List Char) : ∀ b ∈ utf8Encode s, b < 256 := by
  induction s with
  | nil => intro b hb; simp [utf8Encode] at hb
  | cons c cs ih =>
    intro b hb
    rw [utf8Encode] at hb
    rcases List.mem_append.mp hb with h | h
    · exact utf8EncodeChar_lt c.toNat (char_toNat_lt c) b h
    · exact ih b h

def b64Alphabet : List Char :=
  "ABCDEFGHIJKLMNOPQRSTUVWXYZabcdefghijklmnopqrstuvwxyz0123456789+/".toList

def b64Char (i : Nat) : Char := b64Alphabet.getD i '?'

def b64Index (c : Char) : Option Nat := b64Alphabet.indexOf? c

theorem b64Index_b64Char : ∀ i, i < 64 → b64Index (b64Char i) = some i := by decide

theorem b64Index_pad : b64Index '=' = none := by decide

def b64Encode : List Nat → List Char
  | [] => []
  | [a] => [b64Char (a / 4), b64Char (a % 4 * 16), '=', '=']
  | [a, b] => [b64Char (a / 4), b64Char (a % 4 * 16 + b / 16), b64Char (b % 16 * 4), '=']
  | a :: b :: c :: rest =>
    [b64Char (a / 4), b64Char (a % 4 * 16 + b / 16), b64Char (b % 16 * 4 + c / 64),
      b64Char (c % 64)] ++ b64Encode rest

def b64DecodeQuad (c1 c2 c3 c4 : Char) : Option (List Nat) :=
  match b64Index c1, b64Index c2, b64Index c3, b64Index c4 with
  | some i1, some i2, some i3, some i4 =>
    some [i1 * 4 + i2 / 16, i2 % 16 * 16 + i3 / 4, i3 % 4 * 64 + i4]
  | some i1, some i2, some i3, none =>
    if c4 = '=' then some [i1 * 4 + i2 / 16, i2 % 16 * 16 + i3 / 4] else none
  | some i1, some i2, none, none =>
    if c3 = '=' ∧ c4 = '=' then some [i1 * 4 + i2 / 16] else none
  | _, _, _, _ => none

def b64Decode : List Char → Option (List Nat)
  | [] => some []
  | c1 :: c2 :: c3 :: c4 :: rest =>
    if rest.isEmpty then b64DecodeQuad c1 c2 c3 c4
    else
      match b64Index c1, b64Index c2, b64Index c3, b64Index c4 with
      | some i1, some i2, some i3, some i4 =>
        (b64Decode rest).map (fun t =>
          (i1 * 4 + i2 / 16) :: (i2 % 16 * 16 + i3 / 4) :: (i3 % 4 * 64 + i4) :: t)
      | _, _, _, _ => none
  | _ => none

theorem b64Encode_ne_nil (bs : List Nat) (h : bs ≠ []) : b64Encode bs ≠ [] := by
  match bs with
  | [] => exact absurd rfl h
  | [a] => simp [b64Encode]
  | [a, b] => simp [b64Encode]
  | a :: b :: c :: rest => simp [b64Encode]

theorem b64_roundtrip (bs : List Nat) (h : ∀ x ∈ bs, x < 256) :
    b64Decode (b64Encode bs) = some bs := by
  match bs with
  | [] => rfl
  | [a] =>
    have ha : a < 256 := h a (by simp)
    have e1 : b64Index (b64Char (a / 4)) = some (a / 4) := b64Index_b64Char _ (by omega)
    have e2 : b64Index (b64Char (a % 4 * 16)) = some (a % 4 * 16) :=
      b64Index_b64Char _ (by omega)
    show b64Decode [b64Char (a / 4), b64Char (a % 4 * 16), '=', '='] = some [a]
    rw [b64Decode]
    simp only [List.isEmpty_nil, if_true, b64DecodeQuad, e1, e2, b64Index_pad]
    rw [if_pos ⟨trivial, trivial⟩]
    have hv : a / 4 * 4 + a % 4 * 16 / 16 = a := by omega
    rw [hv]
  | [a, b] =>
    have ha : a < 256 := h a (by simp)
    have hb : b < 256 := h b (by simp)
    have e1 : b64Index (b64Char (a / 4)) = some (a / 4) := b64Index_b64Char _ (by omega)
    have e2 : b64Index (b64Char (a % 4 * 16 + b / 16)) = some (a % 4 * 16 + b / 16) :=
      b64Index_b64Char _ (by omega)
    have e3 : b64Index (b64Char (b % 16 * 4)) = some (b % 16 * 4) :=
      b64Index_b64Char _ (by omega)
    show b64Decode [b64Char (a / 4), b64Char (a % 4 * 16 + b / 16),
      b64Char (b % 16 * 4), '='] = some [a, b]
    rw [b64Decode]
    simp only [List.isEmpty_nil, if_true, b64DecodeQuad, e1, e2, e3, b64Index_pad]
    have hv1 : a / 4 * 4 + (a % 4 * 16 + b / 16) / 16 = a := by omega
    have hv2 : (a % 4 * 16 + b / 16) % 16 * 16 + b % 16 * 4 / 4 = b := by omega
    rw [hv1, hv2]
  | [a, b, c] =>
    have ha : a < 256 := h a (by simp)
    have hb : b < 256 := h b (by simp)
    have hc : c < 256 := h c (by simp)
    have e1 : b64Index (b64Char (a / 4)) = some (a / 4) := b64Index_b64Char _ (by omega)
    have e2 : b64Index (b64Char (a % 4 * 16 + b / 16)) = some (a % 4 * 16 + b / 16) :=
      b64Index_b64Char _ (by omega)
    have e3 : b64Index (b64Char (b % 16 * 4 + c / 64)) = some (b % 16 * 4 + c / 64) :=
      b64Index_b64Char _ (by omega)
    have e4 : b64Index (b64Char (c % 64)) = some (c % 64) := b64Index_b64Char _ (by omega)
    show b64Decode [b64Char (a / 4), b64Char (a % 4 * 16 + b / 16),
      b64Char (b % 16 * 4 + c / 64), b64Char (c % 64)] = some [a, b, c]
    rw [b64Decode]
    simp only [List.isEmpty_nil, if_true, b64DecodeQuad, e1, e2, e3, e4]
    have hv1 : a / 4 * 4 + (a % 4 * 16 + b / 16) / 16 = a := by omega
    have hv2 : (a % 4 * 16 + b / 16) % 16 * 16 + (b % 16 * 4 + c / 64) / 4 = b := by omega
    have hv3 : (b % 16 * 4 + c / 64) % 4 * 64 + c % 64 = c := by omega
    rw [hv1, hv2, hv3]
  | a :: b :: c :: d :: rest2 =>
    have ha : a < 256 := h a (by simp)
    have hb : b < 256 := h b (by simp)
    have hc : c < 256 := h c (by simp)
    have hrest : ∀ x ∈ d :: rest2, x < 256 := by
      intro x hx
      exact h x (by simp [hx])
    have hne : (b64Encode (d :: rest2)).isEmpty = false := by
      cases hE : b64Encode (d :: rest2) with
      | nil => exact absurd hE (b64Encode_ne_nil _ (by simp))
      | cons x xs => rfl
    have e1 : b64Index (b64Char (a / 4)) = some (a / 4) := b64Index_b64Char _ (by omega)
    have e2 : b64Index (b64Char (a % 4 * 16 + b / 16)) = some (a % 4 * 16 + b / 16) :=
      b64Index_b64Char _ (by omega)
    have e3 : b64Index (b64Char (b % 16 * 4 + c / 64)) = some (b % 16 * 4 + c / 64) :=
      b64Index_b64Char _ (by omega)
    have e4 : b64Index (b64Char (c % 64)) = some (c % 64) := b64Index_b64Char _ (by omega)
    show b64Decode ([b64Char (a / 4), b64Char (a % 4 * 16 + b / 16),
      b64Char (b % 16 * 4 + c / 64), b64Char (c % 64)] ++ b64Encode (d :: rest2))
        = some (a :: b :: c :: d :: rest2)
    rw [List.cons_append, List.cons_append, List.cons_append, List.cons_append,
      List.nil_append, b64Decode, hne]
    simp only [Bool.false_eq_true, if_false, e1, e2, e3, e4]
    rw [b64_roundtrip (d :: rest2) hrest]
    have hv1 : a / 4 * 4 + (a % 4 * 16 + b / 16) / 16 = a := by omega
    have hv2 : (a % 4 * 16 + b / 16) % 16 * 16 + (b % 16 * 4 + c / 64) / 4 = b := by omega
    have hv3 : (b % 16 * 4 + c / 64) % 4 * 64 + c % 64 = c := by omega
    rw [hv1, hv2, hv3]
    rfl

/-- The builder's own failure kind (`TemplateKeyNotFoundError`). -/
inductive BuilderErr where
  | templateKeyNotFound (msg : String)
  deriving Repr, DecidableEq

/-- `StartupScriptBuilder.inject_bootstrap_script`, modelled up to the
string it renders into the bootstrap template: with the template present,
the injected `encoded_script` is the base64 encoding of the gzip
compression of the UTF-8 bytes of `full_script`; with the template absent
it raises `TemplateKeyNotFoundError` first. -/
def inject_bootstrap_script (templates : List String)
    (compress : List Nat → List Nat) (full_script : String) :
    Except BuilderErr String :=
  if templates.contains "bootstrap_script_segment" then
    .ok (String.mk (b64Encode (compress (utf8Encode full_script.toList))))
  else
    .error (.templateKeyNotFound
      "Template 'bootstrap_script_segment' not found in loaded templates.")

/-- C3: for any compressor/decompressor pair satisfying gzip's lossless
byte-stream contract, base64-decoding the string injected into the
bootstrap template and decompressing the result reproduces exactly the
UTF-8 bytes of the script passed to `inject_bootstrap_script` — and those
bytes decode back to the script's characters — while a missing
`bootstrap_script_segment` template fails with the builder's
`TemplateKeyNotFoundError`. -/
theorem inject_bootstrap_script_roundtrip
    (compress : List Nat → List Nat) (decompress : List Nat → Option (List Nat))
    (hlossless : ∀ bs, (∀ x ∈ bs, x < 256) → decompress (compress bs) = some bs)
    (hbytes : ∀ bs, (∀ x ∈ bs, x < 256) → ∀ x ∈ compress bs, x < 256)
    (templates : List String) (full_script : String) :
    (templates.contains "bootstrap_script_segment" = true →
        ∃ enc, inject_bootstrap_script templates compress full_script = .ok enc
          ∧ ∃ cbytes, b64Decode enc.toList = some cbytes
            ∧ decompress cbytes = some (utf8Encode full_script.toList)
            ∧ utf8Decode (utf8Encode full_script.toList)
                = some (full_script.toList.map Char.toNat))
      ∧ (templates.contains "bootstrap_script_segment" = false →
          ∃ m, inject_bootstrap_script templates compress full_script
            = .error (.templateKeyNotFound m)) := by
  constructor
  · intro hmem
    have henc : inject_bootstrap_script templates compress full_script
        = .ok (String.mk (b64Encode (compress (utf8Encode full_script.toList)))) := by
      rw [inject_bootstrap_script, if_pos hmem]
    refine ⟨_, henc, compress (utf8Encode full_script.toList), ?_, ?_, ?_⟩
    · have hl : (String.mk (b64Encode (compress (utf8Encode full_script.toList)))).toList
          = b64Encode (compress (utf8Encode full_script.toList)) := rfl
      rw [hl]
      exact b64_roundtrip _ (hbytes _ (utf8Encode_lt full_script.toList))
    · exact hlossless _ (utf8Encode_lt full_script.toList)
    · exact utf8Encode_decode full_script.toList
  · intro hmem
    refine ⟨"Template 'bootstrap_script_segment' not found in loaded templates.", ?_⟩
    rw [inject_bootstrap_script, if_neg ?_]
    rw [hmem]
    decide

/-- Witness for C3 with the identity codec (which satisfies the lossless
contract) on the script `"echo ok"` and a template list holding the
bootstrap key. -/
theorem inject_bootstrap_script_roundtrip_witness :
    ∃ enc, inject_bootstrap_script ["bootstrap_script_segment"] id "echo ok" = .ok enc
      ∧ ∃ cbytes, b64Decode enc.toList = some cbytes
        ∧ some cbytes = some (utf8Encode "echo ok".toList)
        ∧ utf8Decode (utf8Encode "echo ok".toList)
            = some ("echo ok".toList.map Char.toNat) :=
  (inject_bootstrap_script_roundtrip id (fun bs => some bs)
    (fun _ _ => rfl) (fun _ h => h)
    ["bootstrap_script_segment"] "echo ok").1 rfl


end FlowSdk
